import Mathlib

/-!
Shallow embedding of `giotto/time_series/preprocessing.py`: the `Resampler`
and `Stationarizer` transformers, with the pandas/numpy primitives they call
modelled explicitly.  Timestamps are natural numbers of seconds since the
Unix epoch (1970-01-01 00:00 UTC, a Thursday); numeric entries are reals for
the Stationarizer and an arbitrary payload type for the Resampler (which only
selects and reshapes, never computes with values).
-/

/-- Errors raised by the Python code: `ValueError` from parameter validation,
the scikit-learn `NotFittedError` from `check_is_fitted`, the pandas
`IndexError` from `iloc` on a column-less frame, and the numpy `ValueError`
from an impossible `reshape` (kept as a distinct constructor). -/
inductive PyError where
  | ValueError : String → PyError
  | NotFittedError : PyError
  | IndexError : PyError
  | ReshapeError : PyError
  deriving DecidableEq, Repr

/-- Python substring containment `pat in s`, as used by
`'return' in self.stationarization_type`. -/
def strContains (pat s : String) : Bool :=
  decide (pat.toList <:+: s.toList)

/-- A pandas DataFrame with a datetime index: a recorded column count and the
rows, each carrying its timestamp (seconds since the epoch) and its values. -/
structure DataFrame (α : Type) where
  ncols : ℕ
  rows : List (ℕ × List α)

/-- Modelled from the spec: the time-of-day component of a timestamp
(pandas `DatetimeIndex.time`), in seconds since midnight. -/
def timeOfDay (t : ℕ) : ℕ := t % 86400

/-- Modelled from the spec: pandas `DatetimeIndex.dayofweek`, Monday = 0 ...
Sunday = 6.  The epoch day 1970-01-01 is a Thursday (weekday 3). -/
def dayofweek (t : ℕ) : ℕ := (t / 86400 + 3) % 7

/-- Index of the sampling period of length `p` (seconds) that timestamp `t`
falls into, with periods starting at the first timestamp `t0`. -/
def binOf (p t0 t : ℕ) : ℕ := (t - t0) / p

/-- Keep, in order, the first row of each period; `seen` accumulates the
period indices already represented. -/
def firstPerBin {α : Type} (p t0 : ℕ) :
    List (ℕ × List α) → List ℕ → List (ℕ × List α)
  | [], _ => []
  | row :: rest, seen =>
    if binOf p t0 row.1 ∈ seen then firstPerBin p t0 rest seen
    else row :: firstPerBin p t0 rest (binOf p t0 row.1 :: seen)

/-- Modelled from the spec: pandas `X.resample(period).first()` as the
specification describes it — one row per period of length `p` starting at the
series' first timestamp, each represented by the first original row falling
in it, periods containing no rows being dropped. -/
def resampleFirst {α : Type} (p : ℕ) (rows : List (ℕ × List α)) :
    List (ℕ × List α) :=
  match rows with
  | [] => []
  | row0 :: _ => firstPerBin p row0.1 rows []

/-- The periodic sampling step exactly as the specification words it: keep
the head row, discard every later row falling in the same period, recurse. -/
def keepFirstPerPeriod {α : Type} (p t0 : ℕ) :
    List (ℕ × List α) → List (ℕ × List α)
  | [] => []
  | row :: rest =>
    row :: keepFirstPerPeriod p t0
      (rest.filter (fun r2 => ! decide (binOf p t0 r2.1 = binOf p t0 row.1)))
termination_by l => l.length
decreasing_by
  simp only [List.length_cons]
  exact Nat.lt_succ_of_le (List.length_filter_le _ _)

/-- Entry point of the spec-worded periodic sampling: periods start at the
series' first timestamp. -/
def specPeriodicSample {α : Type} (p : ℕ) (rows : List (ℕ × List α)) :
    List (ℕ × List α) :=
  match rows with
  | [] => []
  | row0 :: _ => keepFirstPerPeriod p row0.1 rows

/-- Modelled from the spec: `X.iloc[:, 0].values` — the first column of the
table; pandas raises an `IndexError` when a row has no entry. -/
def firstColumn {α : Type} : List (ℕ × List α) → Except PyError (List α)
  | [] => Except.ok []
  | row :: rest =>
    match row.2 with
    | [] => Except.error PyError.IndexError
    | a :: _ =>
      match firstColumn rest with
      | Except.error e => Except.error e
      | Except.ok col => Except.ok (a :: col)

/-- Cut a list into consecutive chunks of `n` elements; the fuel argument is
an upper bound on the number of chunks, so the recursion is structural. -/
def chunkGo {α : Type} (n : ℕ) : ℕ → List α → List (List α)
  | _, [] => []
  | 0, _ :: _ => []
  | fuel + 1, a :: l => ((a :: l).take n) :: chunkGo n fuel ((a :: l).drop n)

/-- Row-major chunks of size `n` of a list, as `reshape((-1, n))` lays a flat
vector out. -/
def chunkList {α : Type} (n : ℕ) (l : List α) : List (List α) :=
  chunkGo n l.length l

/-- Modelled from the spec: numpy `v.reshape((-1, n))` on a flat vector `v` —
succeeds exactly when `n` is positive and divides the vector's length,
producing the rows of the reshaped 2-D array; otherwise numpy raises a
`ValueError` (modelled as `ReshapeError`). -/
def npReshapeNeg1 {α : Type} (n : ℕ) (v : List α) :
    Except PyError (List (List α)) :=
  if n ≠ 0 ∧ n ∣ v.length then Except.ok (chunkList n v)
  else Except.error PyError.ReshapeError

/-- The `Resampler` estimator: its four constructor parameters and the two
attributes set by `fit` (absent on a fresh instance, modelled by defaults). -/
structure Resampler where
  sampling_type : String := "periodic"
  sampling_period : ℕ := 7200
  sampling_times : List ℕ := [0]
  remove_weekends : Bool := true
  _is_fitted : Bool := false
  _n_features : ℕ := 0
  deriving DecidableEq, Repr

/-- The valid sampling types, `Resampler.valid_sampling_types`. -/
def Resampler.valid_sampling_types : List String := ["periodic", "fixed"]

/-- The static method `Resampler._validate_params`. -/
def Resampler._validate_params (sampling_type : String) :
    Except PyError Unit :=
  if sampling_type ∈ Resampler.valid_sampling_types then Except.ok ()
  else Except.error (PyError.ValueError
    ("The sampling type " ++ sampling_type ++ " is not supported"))

/-- The method `Resampler.fit`: validate the sampling type, record the column
count, set the fitted marker. -/
def Resampler.fit {α : Type} (r : Resampler) (X : DataFrame α) :
    Except PyError Resampler :=
  match Resampler._validate_params r.sampling_type with
  | Except.error e => Except.error e
  | Except.ok _ =>
    Except.ok { r with _n_features := X.ncols, _is_fitted := true }

/-- The sampling step of `Resampler.transform`: `X.resample(period).first()`
when periodic, `X.iloc[np.isin(X.index.time, sampling_times)]` when fixed. -/
def Resampler.sample {α : Type} (r : Resampler) (rows : List (ℕ × List α)) :
    List (ℕ × List α) :=
  if r.sampling_type = "periodic" then resampleFirst r.sampling_period rows
  else if r.sampling_type = "fixed" then
    rows.filter (fun row => decide (timeOfDay row.1 ∈ r.sampling_times))
  else rows

/-- The weekend-removal step of `Resampler.transform`:
`X[X.index.dayofweek < 5]` when `remove_weekends` is set. -/
def Resampler.weekendStage {α : Type} (r : Resampler)
    (rows : List (ℕ × List α)) : List (ℕ × List α) :=
  if r.remove_weekends then rows.filter (fun row => decide (dayofweek row.1 < 5))
  else rows

/-- The final step of `Resampler.transform`:
`X.iloc[:, 0].values.reshape((-1, n))`, propagating the `iloc` error. -/
def reshapeStage {α : Type} (n : ℕ) (rows : List (ℕ × List α)) :
    Except PyError (List (List α)) :=
  match firstColumn rows with
  | Except.error e => Except.error e
  | Except.ok col => npReshapeNeg1 n col

/-- The method `Resampler.transform`: check fitted, sample, filter weekends,
then `X.iloc[:, 0].values.reshape((-1, self._n_features))`. -/
def Resampler.transform {α : Type} (r : Resampler) (X : DataFrame α) :
    Except PyError (List (List α)) :=
  if r._is_fitted then
    reshapeStage r._n_features
      (Resampler.weekendStage r (Resampler.sample r X.rows))
  else Except.error PyError.NotFittedError

/-- The `Stationarizer` estimator: its constructor parameter and the fitted
marker set by `fit`. -/
structure Stationarizer where
  stationarization_type : String := "return"
  _is_fitted : Bool := false
  deriving DecidableEq, Repr

/-- The valid stationarization types,
`Stationarizer.valid_stationarization_types`. -/
def Stationarizer.valid_stationarization_types : List String :=
  ["return", "log-return"]

/-- The static method `Stationarizer._validate_params`. -/
def Stationarizer._validate_params (stationarization_type : String) :
    Except PyError Unit :=
  if stationarization_type ∈ Stationarizer.valid_stationarization_types then
    Except.ok ()
  else Except.error (PyError.ValueError
    ("The transformation type " ++ stationarization_type ++ " is not supported"))

/-- The method `Stationarizer.fit`: validate the type and set the fitted
marker; the input is ignored. -/
def Stationarizer.fit {α : Type} (s : Stationarizer) (X : List (List α)) :
    Except PyError Stationarizer :=
  match Stationarizer._validate_params s.stationarization_type with
  | Except.error e => Except.error e
  | Except.ok _ => Except.ok { s with _is_fitted := true }

/-- The method `Stationarizer.transform`: check fitted; when the type
contains `return`, compute `np.diff(X, n=1, axis=0) / X[1:, :]`; when it
contains `log`, apply the logarithm elementwise.  The entries live in any
type with subtraction and division (instantiated at the reals in the
theorems below); the elementwise logarithm `np.log` is passed in as the
function argument `lg`. -/
def Stationarizer.transform {α : Type} [Sub α] [Div α] (s : Stationarizer)
    (lg : α → α) (X : List (List α)) : Except PyError (List (List α)) :=
  if s._is_fitted then
    let X1 :=
      if strContains "return" s.stationarization_type then
        List.zipWith (fun dr xr => List.zipWith (fun a b => a / b) dr xr)
          (List.zipWith (fun nr pr => List.zipWith (fun a b => a - b) nr pr)
            X.tail X)
          X.tail
      else X
    let X2 :=
      if strContains "log" s.stationarization_type then X1.map (List.map lg)
      else X1
    Except.ok X2
  else Except.error PyError.NotFittedError

/-! Helper lemmas. -/

/-- Fusing `np.diff` with the elementwise division by the later row: on each
row, dividing the difference `a - b` by the later value `a`. -/
lemma zipWith_div_sub {α : Type} [Sub α] [Div α] :
    ∀ A B : List α,
      List.zipWith (fun a b => a / b)
          (List.zipWith (fun a b => a - b) A B) A
        = List.zipWith (fun a b => (a - b) / a) A B := by
  intro A
  induction A with
  | nil => intro B; rfl
  | cons a A ih =>
    intro B
    cases B with
    | nil => rfl
    | cons b B => simp [ih]

/-- Row-level fusion of the two passes of the return computation into the
single formula `(a - b) / a`. -/
lemma rows_fusion {α : Type} [Sub α] [Div α] :
    ∀ T X : List (List α),
      List.zipWith (fun dr xr => List.zipWith (fun a b => a / b) dr xr)
          (List.zipWith (fun nr pr => List.zipWith (fun a b => a - b) nr pr)
            T X) T
        = List.zipWith
            (fun nr pr => List.zipWith (fun a b => (a - b) / a) nr pr) T X := by
  intro T
  induction T with
  | nil => intro X; rfl
  | cons t T ih =>
    intro X
    cases X with
    | nil => rfl
    | cons x X => simp [ih, zipWith_div_sub]

/-- Every row of a row-wise zip of two tables of uniform width `c` again has
width `c`. -/
lemma zipWith_inner_length {α : Type} (c : ℕ) (f : α → α → α) :
    ∀ A B : List (List α), (∀ a ∈ A, a.length = c) → (∀ b ∈ B, b.length = c) →
      ∀ row ∈ List.zipWith (fun nr pr => List.zipWith f nr pr) A B,
        row.length = c := by
  intro A
  induction A with
  | nil => intro B _ _ row h; simp at h
  | cons a A ih =>
    intro B hA hB row hrow
    cases B with
    | nil => simp at hrow
    | cons b B =>
      simp only [List.zipWith_cons_cons, List.mem_cons] at hrow
      rcases hrow with h | h
      · subst h
        rw [List.length_zipWith, hA a (by simp), hB b (by simp), Nat.min_self]
      · exact ih B (fun x hx => hA x (by simp [hx]))
          (fun x hx => hB x (by simp [hx])) row h

/-- A successful `Stationarizer.fit` marks the result fitted and certifies
that the stationarization type is one of the enumerated values. -/
lemma fit_ok_stationarizer {α : Type} (s0 s : Stationarizer)
    (Xf : List (List α)) (h : Stationarizer.fit s0 Xf = Except.ok s) :
    s._is_fitted = true ∧
      s.stationarization_type ∈ Stationarizer.valid_stationarization_types := by
  unfold Stationarizer.fit Stationarizer._validate_params at h
  by_cases hv : s0.stationarization_type ∈
      Stationarizer.valid_stationarization_types
  · rw [if_pos hv] at h
    simp only [Except.ok.injEq] at h
    subst h
    exact ⟨rfl, hv⟩
  · rw [if_neg hv] at h
    simp at h

/-- A successful `Resampler.fit` marks the result fitted, records the column
count, and certifies that the sampling type is one of the enumerated
values. -/
lemma fit_ok_resampler {α : Type} (r0 r : Resampler) (Xf : DataFrame α)
    (h : Resampler.fit r0 Xf = Except.ok r) :
    r._is_fitted = true ∧ r.sampling_type ∈ Resampler.valid_sampling_types := by
  unfold Resampler.fit Resampler._validate_params at h
  by_cases hv : r0.sampling_type ∈ Resampler.valid_sampling_types
  · rw [if_pos hv] at h
    simp only [Except.ok.injEq] at h
    subst h
    exact ⟨rfl, hv⟩
  · rw [if_neg hv] at h
    simp at h

/-- The only error `firstColumn` produces is `IndexError`. -/
lemma firstColumn_error_eq {α : Type} :
    ∀ (rows : List (ℕ × List α)) (e : PyError),
      firstColumn rows = Except.error e → e = PyError.IndexError := by
  intro rows
  induction rows with
  | nil => intro e h; simp [firstColumn] at h
  | cons row rest ih =>
    intro e h
    unfold firstColumn at h
    cases h2 : row.2 with
    | nil =>
      rw [h2] at h
      simp at h
      exact h.symm
    | cons a t =>
      rw [h2] at h
      cases hfc : firstColumn rest with
      | error e2 =>
        rw [hfc] at h
        simp at h
        rw [← h]
        exact ih e2 hfc
      | ok col =>
        rw [hfc] at h
        simp at h

/-! Claim theorems for the Stationarizer. -/

/-- C1: for every fitted Stationarizer with stationarization type `return`
and every 2-D real input with at least one row, `transform` computes, per
feature column, `d[t] = (X[t] - X[t-1]) / X[t]` for `t = 1 .. n_samples - 1`
(the divisor is the later value); in particular `[1, 2, 4]` yields
`[0.5, 0.5]`. -/
theorem stationarizer_return_transform (s : Stationarizer) (lg : ℝ → ℝ)
    (X : List (List ℝ)) (hfit : s._is_fitted = true)
    (ht : s.stationarization_type = "return") (hn : 1 ≤ X.length) :
    Stationarizer.transform s lg X
        = Except.ok (List.zipWith
            (fun nr pr => List.zipWith (fun a b => (a - b) / a) nr pr)
            X.tail X) ∧
    Stationarizer.transform s lg [[1], [2], [4]]
        = Except.ok [[(1 : ℝ) / 2], [(1 : ℝ) / 2]] := by
  have hret : strContains "return" "return" = true := by decide
  have hlog : strContains "log" "return" = false := by decide
  have key : ∀ Y : List (List ℝ), Stationarizer.transform s lg Y
      = Except.ok (List.zipWith
          (fun nr pr => List.zipWith (fun a b => (a - b) / a) nr pr)
          Y.tail Y) := by
    intro Y
    simp only [Stationarizer.transform, hfit, ht, hret, hlog, if_true,
      Bool.false_eq_true, if_false, rows_fusion]
  refine ⟨key X, ?_⟩
  rw [key [[1], [2], [4]]]
  norm_num

/-- C1 witness at a concrete fitted instance and the concrete input. -/
theorem stationarizer_return_transform_witness :
    Stationarizer.transform
        { stationarization_type := "return", _is_fitted := true } id
        [[1], [2], [4]]
      = Except.ok (List.zipWith
          (fun nr pr => List.zipWith (fun a b => (a - b) / a) nr pr)
          ([[1], [2], [4]] : List (List ℝ)).tail [[1], [2], [4]]) ∧
    Stationarizer.transform
        { stationarization_type := "return", _is_fitted := true } id
        [[1], [2], [4]]
      = Except.ok [[(1 : ℝ) / 2], [(1 : ℝ) / 2]] :=
  stationarizer_return_transform
    { stationarization_type := "return", _is_fitted := true } id
    [[1], [2], [4]] rfl rfl (by norm_num)

/-- C5: for every fitted Stationarizer with stationarization type
`log-return`, `transform` equals the elementwise natural logarithm of the
relative-return series `d[t] = (X[t] - X[t-1]) / X[t]`; in particular
`[1, 2, 4]` yields `[ln(0.5), ln(0.5)]`. -/
theorem stationarizer_log_return_transform (s : Stationarizer)
    (X : List (List ℝ)) (hfit : s._is_fitted = true)
    (ht : s.stationarization_type = "log-return") :
    Stationarizer.transform s Real.log X
        = Except.ok ((List.zipWith
            (fun nr pr => List.zipWith (fun a b => (a - b) / a) nr pr)
            X.tail X).map (List.map Real.log)) ∧
    Stationarizer.transform s Real.log [[1], [2], [4]]
        = Except.ok [[Real.log ((1 : ℝ) / 2)], [Real.log ((1 : ℝ) / 2)]] := by
  have hret : strContains "return" "log-return" = true := by decide
  have hlog : strContains "log" "log-return" = true := by decide
  have key : ∀ Y : List (List ℝ), Stationarizer.transform s Real.log Y
      = Except.ok ((List.zipWith
          (fun nr pr => List.zipWith (fun a b => (a - b) / a) nr pr)
          Y.tail Y).map (List.map Real.log)) := by
    intro Y
    simp only [Stationarizer.transform, hfit, ht, hret, hlog, if_true,
      rows_fusion]
  refine ⟨key X, ?_⟩
  rw [key [[1], [2], [4]]]
  norm_num

/-- C5 witness at a concrete fitted instance and the concrete input. -/
theorem stationarizer_log_return_transform_witness :
    Stationarizer.transform
        { stationarization_type := "log-return", _is_fitted := true }
        Real.log [[1], [2], [4]]
      = Except.ok ((List.zipWith
          (fun nr pr => List.zipWith (fun a b => (a - b) / a) nr pr)
          ([[1], [2], [4]] : List (List ℝ)).tail
          [[1], [2], [4]]).map (List.map Real.log)) ∧
    Stationarizer.transform
        { stationarization_type := "log-return", _is_fitted := true }
        Real.log [[1], [2], [4]]
      = Except.ok [[Real.log ((1 : ℝ) / 2)], [Real.log ((1 : ℝ) / 2)]] :=
  stationarizer_log_return_transform
    { stationarization_type := "log-return", _is_fitted := true }
    [[1], [2], [4]] rfl rfl

/-- C4 fails as stated: on the zero-row input, `transform` returns a
zero-row output, which does not have one row fewer than the input
(`0 + 1 ≠ 0`). -/
theorem stationarizer_shape_counterexample :
    Stationarizer.transform
        { stationarization_type := "return", _is_fitted := true } id
        ([] : List (List ℝ))
      = Except.ok [] ∧ (0 : ℕ) + 1 ≠ 0 := by
  constructor
  · rfl
  · decide

/-- C4 amended: for every Stationarizer obtained from a successful `fit` and
every uniform-width real input with at least one row, the output of
`transform` has exactly one row fewer than the input and the same column
count; a zero-row input instead yields a zero-row output (see the
counterexample). -/
theorem stationarizer_shape_amended (s0 s : Stationarizer)
    (Xf : List (List ℝ)) (lg : ℝ → ℝ) (X : List (List ℝ)) (c : ℕ)
    (hfit : Stationarizer.fit s0 Xf = Except.ok s)
    (hc : ∀ row ∈ X, row.length = c) (hX : X ≠ []) :
    ∃ Y, Stationarizer.transform s lg X = Except.ok Y ∧
      Y.length + 1 = X.length ∧ ∀ row ∈ Y, row.length = c := by
  obtain ⟨hf, hv⟩ := fit_ok_stationarizer s0 s Xf hfit
  simp only [Stationarizer.valid_stationarization_types, List.mem_cons,
    List.mem_singleton, List.not_mem_nil, or_false] at hv
  have hpos : 0 < X.length := List.length_pos.mpr hX
  have hlen : (List.zipWith
      (fun nr pr => List.zipWith (fun a b => (a - b) / a) nr pr)
      X.tail X).length + 1 = X.length := by
    rw [List.length_zipWith, List.length_tail]
    omega
  have hrows : ∀ row ∈ List.zipWith
      (fun nr pr => List.zipWith (fun a b => (a - b) / a) nr pr)
      X.tail X, row.length = c := by
    refine zipWith_inner_length c _ X.tail X ?_ hc
    intro a ha
    exact hc a (List.mem_of_mem_tail ha)
  rcases hv with h | h
  · have hret : strContains "return" s.stationarization_type = true := by
      rw [h]; decide
    have hlog : strContains "log" s.stationarization_type = false := by
      rw [h]; decide
    refine ⟨_, ?_, hlen, hrows⟩
    simp only [Stationarizer.transform, hf, hret, hlog, if_true,
      Bool.false_eq_true, if_false, rows_fusion]
  · have hret : strContains "return" s.stationarization_type = true := by
      rw [h]; decide
    have hlog : strContains "log" s.stationarization_type = true := by
      rw [h]; decide
    refine ⟨(List.zipWith
        (fun nr pr => List.zipWith (fun a b => (a - b) / a) nr pr)
        X.tail X).map (List.map lg), ?_, ?_, ?_⟩
    · simp only [Stationarizer.transform, hf, hret, hlog, if_true,
        rows_fusion]
    · rw [List.length_map]
      exact hlen
    · intro row hrow
      rw [List.mem_map] at hrow
      obtain ⟨row0, hrow0, hrw⟩ := hrow
      rw [← hrw, List.length_map]
      exact hrows row0 hrow0

/-- C4 amended witness at a concrete fitted instance and input. -/
theorem stationarizer_shape_amended_witness :
    ∃ Y, Stationarizer.transform
        { stationarization_type := "return", _is_fitted := true } id
        ([[1], [2], [4]] : List (List ℝ)) = Except.ok Y ∧
      Y.length + 1 = ([[1], [2], [4]] : List (List ℝ)).length ∧
      ∀ row ∈ Y, row.length = 1 :=
  stationarizer_shape_amended { stationarization_type := "return" }
    { stationarization_type := "return", _is_fitted := true }
    [] id [[1], [2], [4]] 1 rfl (by simp) (by simp)

/-! Claim theorems for parameter validation and the fitted-state check. -/

/-- C8: constructing with an unrecognized type always succeeds (the record
constructors are total); `fit` raises a `ValueError` whose message names the
offending value exactly when the type is outside its enumerated set, and
returns the fitted estimator otherwise — for the Resampler and the
Stationarizer alike. -/
theorem fit_validation {α : Type} (r : Resampler) (s : Stationarizer)
    (X : DataFrame α) (Xs : List (List α)) :
    (r.sampling_type ∉ Resampler.valid_sampling_types →
      Resampler.fit r X = Except.error (PyError.ValueError
        ("The sampling type " ++ r.sampling_type ++ " is not supported"))) ∧
    (r.sampling_type ∈ Resampler.valid_sampling_types →
      Resampler.fit r X
        = Except.ok { r with _n_features := X.ncols, _is_fitted := true }) ∧
    (s.stationarization_type ∉ Stationarizer.valid_stationarization_types →
      Stationarizer.fit s Xs = Except.error (PyError.ValueError
        ("The transformation type " ++ s.stationarization_type
          ++ " is not supported"))) ∧
    (s.stationarization_type ∈ Stationarizer.valid_stationarization_types →
      Stationarizer.fit s Xs = Except.ok { s with _is_fitted := true }) := by
  refine ⟨fun h => ?_, fun h => ?_, fun h => ?_, fun h => ?_⟩
  · unfold Resampler.fit Resampler._validate_params
    rw [if_neg h]
  · unfold Resampler.fit Resampler._validate_params
    rw [if_pos h]
  · unfold Stationarizer.fit Stationarizer._validate_params
    rw [if_neg h]
  · unfold Stationarizer.fit Stationarizer._validate_params
    rw [if_pos h]

/-- C8 witness: `fit` on `bogus`-typed instances errors with the message
naming the value, and on validly typed instances succeeds. -/
theorem fit_validation_witness :
    Resampler.fit ({ sampling_type := "bogus" } : Resampler)
        (⟨1, []⟩ : DataFrame ℕ)
      = Except.error (PyError.ValueError
          ("The sampling type " ++ "bogus" ++ " is not supported")) ∧
    Resampler.fit ({ sampling_type := "periodic" } : Resampler)
        (⟨1, []⟩ : DataFrame ℕ)
      = Except.ok { ({ sampling_type := "periodic" } : Resampler) with
          _n_features := 1, _is_fitted := true } ∧
    Stationarizer.fit ({ stationarization_type := "bogus" } : Stationarizer)
        ([] : List (List ℕ))
      = Except.error (PyError.ValueError
          ("The transformation type " ++ "bogus" ++ " is not supported")) ∧
    Stationarizer.fit ({ stationarization_type := "return" } : Stationarizer)
        ([] : List (List ℕ))
      = Except.ok { ({ stationarization_type := "return" } : Stationarizer) with
          _is_fitted := true } :=
  ⟨(fit_validation { sampling_type := "bogus" }
      { stationarization_type := "bogus" } ⟨1, []⟩ []).1 (by decide),
   (fit_validation { sampling_type := "periodic" }
      { stationarization_type := "return" } ⟨1, []⟩ []).2.1 (by decide),
   (fit_validation { sampling_type := "bogus" }
      { stationarization_type := "bogus" } (⟨1, []⟩ : DataFrame ℕ)
      []).2.2.1 (by decide),
   (fit_validation { sampling_type := "periodic" }
      { stationarization_type := "return" } (⟨1, []⟩ : DataFrame ℕ)
      []).2.2.2 (by decide)⟩

/-- C9: `transform` on an unfitted instance raises `NotFittedError` for
every input, for both estimators; once `fit` has succeeded, `transform`
never returns `NotFittedError`. -/
theorem transform_not_fitted {α : Type} (r r0 : Resampler)
    (s s0 : Stationarizer) (X Xf : DataFrame α) (lg : ℝ → ℝ)
    (Xs Xsf : List (List ℝ)) :
    (r._is_fitted = false →
      Resampler.transform r X = Except.error PyError.NotFittedError) ∧
    (s._is_fitted = false →
      Stationarizer.transform s lg Xs = Except.error PyError.NotFittedError) ∧
    (Resampler.fit r0 Xf = Except.ok r →
      Resampler.transform r X ≠ Except.error PyError.NotFittedError) ∧
    (Stationarizer.fit s0 Xsf = Except.ok s →
      Stationarizer.transform s lg Xs ≠ Except.error PyError.NotFittedError) := by
  refine ⟨fun h => ?_, fun h => ?_, fun h => ?_, fun h => ?_⟩
  · simp [Resampler.transform, h]
  · simp [Stationarizer.transform, h]
  · obtain ⟨hf, -⟩ := fit_ok_resampler r0 r Xf h
    unfold Resampler.transform
    rw [hf]
    simp only [if_true]
    unfold reshapeStage
    cases hfc : firstColumn
        (Resampler.weekendStage r (Resampler.sample r X.rows)) with
    | error e =>
      have he := firstColumn_error_eq _ e hfc
      subst he
      simp
    | ok col =>
      unfold npReshapeNeg1
      split
      · simp_all
      · split <;> simp
  · obtain ⟨hf, -⟩ := fit_ok_stationarizer s0 s Xsf h
    simp [Stationarizer.transform, hf]

/-- C9 witness: concrete fresh instances raise `NotFittedError`; concrete
fitted instances do not. -/
theorem transform_not_fitted_witness :
    (Resampler.transform ({} : Resampler) (⟨1, [(0, [5])]⟩ : DataFrame ℕ)
        = Except.error PyError.NotFittedError) ∧
    (Stationarizer.transform ({} : Stationarizer) id ([[1], [2]] : List (List ℝ))
        = Except.error PyError.NotFittedError) ∧
    (Resampler.transform
        ({ _is_fitted := true, _n_features := 1 } : Resampler)
        (⟨1, [(0, [5])]⟩ : DataFrame ℕ)
        ≠ Except.error PyError.NotFittedError) ∧
    (Stationarizer.transform ({ _is_fitted := true } : Stationarizer) id
        ([[1], [2]] : List (List ℝ))
        ≠ Except.error PyError.NotFittedError) :=
  ⟨(transform_not_fitted ({} : Resampler)
      ({ _is_fitted := true, _n_features := 1 } : Resampler)
      ({} : Stationarizer) ({ _is_fitted := true } : Stationarizer)
      (⟨1, [(0, [5])]⟩ : DataFrame ℕ) (⟨1, []⟩ : DataFrame ℕ) id
      [[1], [2]] []).1 rfl,
   (transform_not_fitted ({} : Resampler)
      ({ _is_fitted := true, _n_features := 1 } : Resampler)
      ({} : Stationarizer) ({ _is_fitted := true } : Stationarizer)
      (⟨1, [(0, [5])]⟩ : DataFrame ℕ) (⟨1, []⟩ : DataFrame ℕ) id
      [[1], [2]] []).2.1 rfl,
   (transform_not_fitted
      ({ _is_fitted := true, _n_features := 1 } : Resampler) ({} : Resampler)
      ({ _is_fitted := true } : Stationarizer) ({} : Stationarizer)
      (⟨1, [(0, [5])]⟩ : DataFrame ℕ) (⟨1, []⟩ : DataFrame ℕ) id
      [[1], [2]] []).2.2.1 rfl,
   (transform_not_fitted
      ({ _is_fitted := true, _n_features := 1 } : Resampler) ({} : Resampler)
      ({ _is_fitted := true } : Stationarizer) ({} : Stationarizer)
      (⟨1, [(0, [5])]⟩ : DataFrame ℕ) (⟨1, []⟩ : DataFrame ℕ) id
      [[1], [2]] []).2.2.2 rfl⟩

/-! Claim theorems for the Resampler. -/

/-- The accumulator form of first-row-per-period agrees with the
filter-recursion form, relative to the periods already seen. -/
lemma firstPerBin_eq_keep {α : Type} (p t0 : ℕ) :
    ∀ (m : ℕ) (rows : List (ℕ × List α)), rows.length ≤ m → ∀ seen : List ℕ,
      firstPerBin p t0 rows seen
        = keepFirstPerPeriod p t0
            (rows.filter (fun row => ! decide (binOf p t0 row.1 ∈ seen))) := by
  intro m
  induction m with
  | zero =>
    intro rows h seen
    have h0 : rows = [] := List.eq_nil_of_length_eq_zero (Nat.le_zero.mp h)
    subst h0
    rw [List.filter_nil, keepFirstPerPeriod.eq_1]
    rfl
  | succ m ih =>
    intro rows h seen
    cases rows with
    | nil =>
      rw [List.filter_nil, keepFirstPerPeriod.eq_1]
      rfl
    | cons row rest =>
      simp only [List.length_cons] at h
      simp only [firstPerBin]
      by_cases hmem : binOf p t0 row.1 ∈ seen
      · rw [if_pos hmem, List.filter_cons_of_neg (by simp [hmem])]
        exact ih rest (by omega) seen
      · rw [if_neg hmem, List.filter_cons_of_pos (by simp [hmem])]
        rw [keepFirstPerPeriod.eq_2]
        congr 1
        rw [ih rest (by omega) (binOf p t0 row.1 :: seen), List.filter_filter]
        congr 1
        apply List.filter_congr
        intro r2 _
        by_cases h1 : binOf p t0 r2.1 = binOf p t0 row.1 <;>
          by_cases h2 : binOf p t0 r2.1 ∈ seen <;>
            simp [h1, h2]

/-- The modelled pandas periodic resampling agrees with the spec-worded
periodic sampling. -/
lemma resampleFirst_eq_spec {α : Type} (p : ℕ) (rows : List (ℕ × List α)) :
    resampleFirst p rows = specPeriodicSample p rows := by
  cases rows with
  | nil => rfl
  | cons row0 rest =>
    show firstPerBin p row0.1 (row0 :: rest) []
        = keepFirstPerPeriod p row0.1 (row0 :: rest)
    rw [firstPerBin_eq_keep p row0.1 (row0 :: rest).length (row0 :: rest)
      le_rfl []]
    congr 1
    simp

/-- C2: for every fitted Resampler with sampling type `periodic`, the
sampling stage of `transform` (before the weekend filter and the reshape)
produces one row per period of length `sampling_period` starting at the
series' first timestamp — each period represented by the first original row
falling in it, periods containing no original rows being dropped — and
`transform` is that stage followed by the weekend filter and the reshape. -/
theorem resampler_periodic_sample_spec {α : Type} (r : Resampler)
    (X : DataFrame α) (hfit : r._is_fitted = true)
    (hp : r.sampling_type = "periodic") :
    Resampler.sample r X.rows = specPeriodicSample r.sampling_period X.rows ∧
    Resampler.transform r X
      = reshapeStage r._n_features (Resampler.weekendStage r
          (specPeriodicSample r.sampling_period X.rows)) := by
  have h1 : Resampler.sample r X.rows
      = specPeriodicSample r.sampling_period X.rows := by
    unfold Resampler.sample
    rw [hp, if_pos rfl]
    exact resampleFirst_eq_spec _ _
  refine ⟨h1, ?_⟩
  unfold Resampler.transform
  rw [hfit, h1]
  simp only [if_true]

/-- C2 witness at a concrete fitted periodic instance and input. -/
theorem resampler_periodic_sample_spec_witness :
    Resampler.sample
        ({ sampling_type := "periodic", sampling_period := 7200,
           remove_weekends := false, _is_fitted := true,
           _n_features := 1 } : Resampler)
        ((⟨1, [(0, [10]), (3600, [11]), (7200, [12])]⟩ : DataFrame ℕ)).rows
      = specPeriodicSample 7200 [(0, [10]), (3600, [11]), (7200, [12])] ∧
    Resampler.transform
        ({ sampling_type := "periodic", sampling_period := 7200,
           remove_weekends := false, _is_fitted := true,
           _n_features := 1 } : Resampler)
        (⟨1, [(0, [10]), (3600, [11]), (7200, [12])]⟩ : DataFrame ℕ)
      = reshapeStage 1 (Resampler.weekendStage
          ({ sampling_type := "periodic", sampling_period := 7200,
             remove_weekends := false, _is_fitted := true,
             _n_features := 1 } : Resampler)
          (specPeriodicSample 7200 [(0, [10]), (3600, [11]), (7200, [12])])) := by
  exact resampler_periodic_sample_spec
    { sampling_type := "periodic", sampling_period := 7200,
      remove_weekends := false, _is_fitted := true, _n_features := 1 }
    (⟨1, [(0, [10]), (3600, [11]), (7200, [12])]⟩ : DataFrame ℕ) rfl rfl

/-- C6: for every fitted Resampler with sampling type `fixed`, the sampling
stage of `transform` keeps exactly the rows whose time-of-day equals one of
the `sampling_times`, preserving order (the result is a sublist) with no
further deduplication; with hourly rows 00:00-23:00 on one day,
`sampling_times = [06:00:00, 18:00:00]` and `remove_weekends = False`,
`transform` yields exactly the 06:00 and 18:00 rows, in that order. -/
theorem resampler_fixed_sample_spec {α : Type} (r : Resampler)
    (X : DataFrame α) (hfit : r._is_fitted = true)
    (hf : r.sampling_type = "fixed") :
    Resampler.sample r X.rows
        = X.rows.filter (fun row => decide (timeOfDay row.1 ∈ r.sampling_times)) ∧
    (Resampler.sample r X.rows).Sublist X.rows ∧
    (∀ row, row ∈ Resampler.sample r X.rows ↔
        row ∈ X.rows ∧ timeOfDay row.1 ∈ r.sampling_times) ∧
    Resampler.transform
        ({ sampling_type := "fixed", sampling_times := [21600, 64800],
           remove_weekends := false, _is_fitted := true,
           _n_features := 1 } : Resampler)
        (⟨1, (List.range 24).map (fun k => (k * 3600, [k]))⟩ : DataFrame ℕ)
      = Except.ok [[6], [18]] := by
  have h1 : Resampler.sample r X.rows
      = X.rows.filter (fun row => decide (timeOfDay row.1 ∈ r.sampling_times)) := by
    unfold Resampler.sample
    rw [hf, if_neg (by decide), if_pos rfl]
  refine ⟨h1, ?_, ?_, by rfl⟩
  · rw [h1]
    exact List.filter_sublist _
  · intro row
    rw [h1, List.mem_filter]
    simp

/-- C6 witness at a concrete fitted fixed-sampling instance and input. -/
theorem resampler_fixed_sample_spec_witness :
    Resampler.sample
        ({ sampling_type := "fixed", sampling_times := [21600, 64800],
           remove_weekends := false, _is_fitted := true,
           _n_features := 1 } : Resampler)
        ((⟨1, (List.range 24).map (fun k => (k * 3600, [k]))⟩ : DataFrame ℕ)).rows
      = ((⟨1, (List.range 24).map (fun k => (k * 3600, [k]))⟩ : DataFrame ℕ)).rows.filter
          (fun row => decide (timeOfDay row.1 ∈ [21600, 64800])) ∧
    Resampler.transform
        ({ sampling_type := "fixed", sampling_times := [21600, 64800],
           remove_weekends := false, _is_fitted := true,
           _n_features := 1 } : Resampler)
        (⟨1, (List.range 24).map (fun k => (k * 3600, [k]))⟩ : DataFrame ℕ)
      = Except.ok [[6], [18]] := by
  have h := resampler_fixed_sample_spec
    ({ sampling_type := "fixed", sampling_times := [21600, 64800],
       remove_weekends := false, _is_fitted := true,
       _n_features := 1 } : Resampler)
    (⟨1, (List.range 24).map (fun k => (k * 3600, [k]))⟩ : DataFrame ℕ)
    rfl rfl
  exact ⟨h.1, h.2.2.2⟩

/-- A day-of-week below 5 is exactly one that is neither Saturday (5) nor
Sunday (6). -/
lemma dayofweek_lt_five_iff (t : ℕ) :
    dayofweek t < 5 ↔ ¬ (dayofweek t = 5 ∨ dayofweek t = 6) := by
  have h7 : dayofweek t < 7 := Nat.mod_lt _ (by norm_num)
  omega

/-- C7: for every fitted Resampler with `remove_weekends` set, `transform`
drops from the sampled result exactly the rows whose date falls on Saturday
or Sunday, keeping all weekday rows; a 14-day daily periodic series covering
two full weeks (starting Monday 1970-01-05) yields exactly the 10 weekday
rows. -/
theorem resampler_weekend_filter {α : Type} (r : Resampler) (X : DataFrame α)
    (hfit : r._is_fitted = true) (hw : r.remove_weekends = true) :
    Resampler.weekendStage r (Resampler.sample r X.rows)
        = (Resampler.sample r X.rows).filter
            (fun row => ! decide (dayofweek row.1 = 5 ∨ dayofweek row.1 = 6)) ∧
    (∀ row, row ∈ Resampler.weekendStage r (Resampler.sample r X.rows) ↔
        row ∈ Resampler.sample r X.rows ∧
          ¬ (dayofweek row.1 = 5 ∨ dayofweek row.1 = 6)) ∧
    Resampler.transform
        ({ sampling_type := "periodic", sampling_period := 86400,
           remove_weekends := true, _is_fitted := true,
           _n_features := 1 } : Resampler)
        (⟨1, (List.range 14).map
            (fun k => (345600 + k * 86400, [k]))⟩ : DataFrame ℕ)
      = Except.ok [[0], [1], [2], [3], [4], [7], [8], [9], [10], [11]] := by
  have h1 : Resampler.weekendStage r (Resampler.sample r X.rows)
      = (Resampler.sample r X.rows).filter
          (fun row => ! decide (dayofweek row.1 = 5 ∨ dayofweek row.1 = 6)) := by
    unfold Resampler.weekendStage
    rw [hw, if_pos rfl]
    apply List.filter_congr
    intro row _
    rw [← decide_not, decide_eq_decide]
    exact dayofweek_lt_five_iff row.1
  refine ⟨h1, ?_, by rfl⟩
  intro row
  rw [h1, List.mem_filter]
  simp

/-- C7 witness at a concrete fitted instance and the two-week input. -/
theorem resampler_weekend_filter_witness :
    Resampler.weekendStage
        ({ sampling_type := "periodic", sampling_period := 86400,
           remove_weekends := true, _is_fitted := true,
           _n_features := 1 } : Resampler)
        (Resampler.sample
          ({ sampling_type := "periodic", sampling_period := 86400,
             remove_weekends := true, _is_fitted := true,
             _n_features := 1 } : Resampler)
          ((⟨1, (List.range 14).map
              (fun k => (345600 + k * 86400, [k]))⟩ : DataFrame ℕ)).rows)
      = (Resampler.sample
          ({ sampling_type := "periodic", sampling_period := 86400,
             remove_weekends := true, _is_fitted := true,
             _n_features := 1 } : Resampler)
          ((⟨1, (List.range 14).map
              (fun k => (345600 + k * 86400, [k]))⟩ : DataFrame ℕ)).rows).filter
          (fun row => ! decide (dayofweek row.1 = 5 ∨ dayofweek row.1 = 6)) ∧
    Resampler.transform
        ({ sampling_type := "periodic", sampling_period := 86400,
           remove_weekends := true, _is_fitted := true,
           _n_features := 1 } : Resampler)
        (⟨1, (List.range 14).map
            (fun k => (345600 + k * 86400, [k]))⟩ : DataFrame ℕ)
      = Except.ok [[0], [1], [2], [3], [4], [7], [8], [9], [10], [11]] := by
  have h := resampler_weekend_filter
    ({ sampling_type := "periodic", sampling_period := 86400,
       remove_weekends := true, _is_fitted := true,
       _n_features := 1 } : Resampler)
    (⟨1, (List.range 14).map
        (fun k => (345600 + k * 86400, [k]))⟩ : DataFrame ℕ) rfl rfl
  exact ⟨h.1, h.2.2⟩

/-- `firstPerBin` commutes with any row map that preserves timestamps. -/
lemma firstPerBin_map {α β : Type} (g : ℕ × List α → ℕ × List β)
    (hg : ∀ row, (g row).1 = row.1) (p t0 : ℕ) :
    ∀ (rows : List (ℕ × List α)) (seen : List ℕ),
      firstPerBin p t0 (rows.map g) seen
        = (firstPerBin p t0 rows seen).map g := by
  intro rows
  induction rows with
  | nil => intro seen; rfl
  | cons row rest ih =>
    intro seen
    by_cases hmem : binOf p t0 row.1 ∈ seen
    · simp only [List.map_cons, firstPerBin, hg, if_pos hmem]
      exact ih seen
    · simp only [List.map_cons, firstPerBin, hg, if_neg hmem]
      simp [ih]

/-- `resampleFirst` commutes with any row map that preserves timestamps. -/
lemma resampleFirst_map {α β : Type} (g : ℕ × List α → ℕ × List β)
    (hg : ∀ row, (g row).1 = row.1) (p : ℕ) (rows : List (ℕ × List α)) :
    resampleFirst p (rows.map g) = (resampleFirst p rows).map g := by
  cases rows with
  | nil => rfl
  | cons row0 rest =>
    simp only [List.map_cons, resampleFirst, hg]
    rw [← List.map_cons]
    exact firstPerBin_map g hg p row0.1 (row0 :: rest) []

/-- The sampling step commutes with any row map that preserves timestamps. -/
lemma sample_map {α β : Type} (r : Resampler) (g : ℕ × List α → ℕ × List β)
    (hg : ∀ row, (g row).1 = row.1) (rows : List (ℕ × List α)) :
    Resampler.sample r (rows.map g) = (Resampler.sample r rows).map g := by
  unfold Resampler.sample
  split_ifs with h1 h2
  · exact resampleFirst_map g hg r.sampling_period rows
  · rw [List.filter_map]
    congr 1
    apply List.filter_congr
    intro row _
    simp [Function.comp, hg]
  · rfl

/-- The weekend filter commutes with any row map preserving timestamps. -/
lemma weekendStage_map {α β : Type} (r : Resampler)
    (g : ℕ × List α → ℕ × List β) (hg : ∀ row, (g row).1 = row.1)
    (rows : List (ℕ × List α)) :
    Resampler.weekendStage r (rows.map g)
      = (Resampler.weekendStage r rows).map g := by
  unfold Resampler.weekendStage
  split_ifs with h1
  · rw [List.filter_map]
    congr 1
    apply List.filter_congr
    intro row _
    simp [Function.comp, hg]
  · rfl

/-- Truncating every row to its first entry does not change the extracted
first column. -/
lemma firstColumn_map_take {α : Type} :
    ∀ rows : List (ℕ × List α),
      firstColumn (rows.map (fun row => (row.1, row.2.take 1)))
        = firstColumn rows := by
  intro rows
  induction rows with
  | nil => rfl
  | cons row rest ih =>
    cases h2 : row.2 with
    | nil => simp [firstColumn, h2]
    | cons a t => simp [firstColumn, h2, ih]

/-- Two tables with the same first column produce the same reshape-stage
output. -/
lemma reshapeStage_congr {α : Type} (n : ℕ)
    (rows1 rows2 : List (ℕ × List α))
    (h : firstColumn rows1 = firstColumn rows2) :
    reshapeStage n rows1 = reshapeStage n rows2 := by
  unfold reshapeStage
  rw [h]

/-- A successful reshape stage comes from a successful column extraction and
a divisible length. -/
lemma reshapeStage_ok {α : Type} (n : ℕ) (rows : List (ℕ × List α))
    (Y : List (List α)) (h : reshapeStage n rows = Except.ok Y) :
    ∃ col, firstColumn rows = Except.ok col ∧ n ≠ 0 ∧ n ∣ col.length ∧
      Y = chunkList n col := by
  unfold reshapeStage npReshapeNeg1 at h
  split at h
  · simp at h
  · rename_i col heq
    by_cases hcond : n ≠ 0 ∧ n ∣ col.length
    · rw [if_pos hcond] at h
      simp only [Except.ok.injEq] at h
      exact ⟨col, heq, hcond.1, hcond.2, h.symm⟩
    · rw [if_neg hcond] at h
      simp at h

/-- Every chunk produced with enough fuel from a list whose length `n`
divides has length exactly `n`. -/
lemma chunkGo_mem_length {α : Type} (n : ℕ) (hn : n ≠ 0) :
    ∀ (fuel : ℕ) (l : List α), l.length ≤ fuel → n ∣ l.length →
      ∀ c ∈ chunkGo n fuel l, c.length = n := by
  intro fuel
  induction fuel with
  | zero =>
    intro l hl hd c hc
    cases l with
    | nil => simp [chunkGo] at hc
    | cons a t => simp at hl
  | succ fuel ih =>
    intro l hl hd c hc
    cases l with
    | nil => simp [chunkGo] at hc
    | cons a t =>
      simp only [chunkGo, List.mem_cons] at hc
      have hlen : n ≤ (a :: t).length := Nat.le_of_dvd (by simp) hd
      rcases hc with h | h
      · rw [h, List.length_take]
        simp only [List.length_cons] at hlen ⊢
        omega
      · have hd2 : n ∣ ((a :: t).drop n).length := by
          rw [List.length_drop]
          exact Nat.dvd_sub' hd dvd_rfl
        have hl2 : ((a :: t).drop n).length ≤ fuel := by
          rw [List.length_drop]
          simp only [List.length_cons] at hl ⊢
          omega
        exact ih _ hl2 hd2 c h

/-- Every row of `chunkList n l` has length `n` when `n` divides the length
of `l`. -/
lemma chunkList_mem_length {α : Type} (n : ℕ) (hn : n ≠ 0) (l : List α)
    (hd : n ∣ l.length) : ∀ c ∈ chunkList n l, c.length = n :=
  chunkGo_mem_length n hn l.length l le_rfl hd

/-- When every row has at least one entry, the first column extraction
succeeds and has one entry per row. -/
lemma firstColumn_ok_all {α : Type} :
    ∀ rows : List (ℕ × List α), (∀ row ∈ rows, row.2 ≠ []) →
      ∃ col, firstColumn rows = Except.ok col ∧ col.length = rows.length := by
  intro rows
  induction rows with
  | nil => exact fun _ => ⟨[], rfl, rfl⟩
  | cons row rest ih =>
    intro h
    obtain ⟨col, hcol, hlen⟩ := ih (fun x hx => h x (by simp [hx]))
    cases h2 : row.2 with
    | nil => exact absurd h2 (h row (by simp))
    | cons a t =>
      refine ⟨a :: col, ?_, by simp [hlen]⟩
      simp [firstColumn, h2, hcol]

/-- C3: for every fitted Resampler, `transform` flattens only the first
column of the sampled-and-filtered table and reshapes it against the
`n_features` recorded at fit time: it factors through the reshape stage,
its output is unchanged when the later columns of the input are changed
(only timestamps and first entries matter), and every output row has
exactly `_n_features` entries. -/
theorem resampler_first_column_only {α : Type} (r : Resampler)
    (X Y : DataFrame α) (hfit : r._is_fitted = true)
    (hproj : X.rows.map (fun row => (row.1, row.2.head?))
        = Y.rows.map (fun row => (row.1, row.2.head?))) :
    Resampler.transform r X
        = reshapeStage r._n_features
            (Resampler.weekendStage r (Resampler.sample r X.rows)) ∧
    Resampler.transform r X = Resampler.transform r Y ∧
    (∀ Z, Resampler.transform r X = Except.ok Z →
        ∀ orow ∈ Z, orow.length = r._n_features) := by
  have h1 : ∀ W : DataFrame α, Resampler.transform r W
      = reshapeStage r._n_features
          (Resampler.weekendStage r (Resampler.sample r W.rows)) := by
    intro W
    unfold Resampler.transform
    rw [hfit]
    simp only [if_true]
  have gt1 : ∀ row : ℕ × List α,
      ((fun row : ℕ × List α => (row.1, row.2.take 1)) row).1 = row.1 :=
    fun _ => rfl
  have key : ∀ rs : List (ℕ × List α),
      firstColumn (Resampler.weekendStage r (Resampler.sample r rs))
        = firstColumn (Resampler.weekendStage r (Resampler.sample r
            (rs.map (fun row => (row.1, row.2.take 1))))) := by
    intro rs
    rw [sample_map r _ gt1, weekendStage_map r _ gt1, firstColumn_map_take]
  have hmap : X.rows.map (fun row => (row.1, row.2.take 1))
      = Y.rows.map (fun row => (row.1, row.2.take 1)) := by
    have hx := congrArg
      (List.map (fun q : ℕ × Option α => (q.1, q.2.toList))) hproj
    simpa [List.map_map, Function.comp_def, ← List.take_one] using hx
  refine ⟨h1 X, ?_, ?_⟩
  · rw [h1 X, h1 Y]
    apply reshapeStage_congr
    rw [key X.rows, hmap, ← key Y.rows]
  · intro Z hZ orow horow
    rw [h1 X] at hZ
    obtain ⟨col, hcol, hn0, hdvd, hchunk⟩ := reshapeStage_ok _ _ _ hZ
    subst hchunk
    exact chunkList_mem_length _ hn0 col hdvd orow horow

/-- C3 witness: a concrete two-column input against its first-column-only
counterpart. -/
theorem resampler_first_column_only_witness :
    Resampler.transform
        ({ sampling_type := "fixed", sampling_times := [0],
           remove_weekends := false, _is_fitted := true,
           _n_features := 1 } : Resampler)
        (⟨2, [(0, [1, 9]), (86400, [2, 8])]⟩ : DataFrame ℕ)
      = reshapeStage 1 (Resampler.weekendStage
          ({ sampling_type := "fixed", sampling_times := [0],
             remove_weekends := false, _is_fitted := true,
             _n_features := 1 } : Resampler)
          (Resampler.sample
            ({ sampling_type := "fixed", sampling_times := [0],
               remove_weekends := false, _is_fitted := true,
               _n_features := 1 } : Resampler)
            [(0, [1, 9]), (86400, [2, 8])])) ∧
    Resampler.transform
        ({ sampling_type := "fixed", sampling_times := [0],
           remove_weekends := false, _is_fitted := true,
           _n_features := 1 } : Resampler)
        (⟨2, [(0, [1, 9]), (86400, [2, 8])]⟩ : DataFrame ℕ)
      = Resampler.transform
          ({ sampling_type := "fixed", sampling_times := [0],
             remove_weekends := false, _is_fitted := true,
             _n_features := 1 } : Resampler)
          (⟨2, [(0, [1]), (86400, [2])]⟩ : DataFrame ℕ) ∧
    (∀ Z, Resampler.transform
          ({ sampling_type := "fixed", sampling_times := [0],
             remove_weekends := false, _is_fitted := true,
             _n_features := 1 } : Resampler)
          (⟨2, [(0, [1, 9]), (86400, [2, 8])]⟩ : DataFrame ℕ)
        = Except.ok Z → ∀ orow ∈ Z, orow.length = 1) := by
  exact resampler_first_column_only
    ({ sampling_type := "fixed", sampling_times := [0],
       remove_weekends := false, _is_fitted := true,
       _n_features := 1 } : Resampler)
    (⟨2, [(0, [1, 9]), (86400, [2, 8])]⟩ : DataFrame ℕ)
    (⟨2, [(0, [1]), (86400, [2])]⟩ : DataFrame ℕ) rfl rfl

/-- C10: for every fitted Resampler with a positive recorded feature count
and an input whose sampled-and-filtered rows are nonempty, `transform`
returns normally exactly when `_n_features` divides the number `m` of rows
remaining after the sampling step and the weekend filter; when it does not
divide `m`, `transform` fails with the reshape error. -/
theorem resampler_reshape_divisibility {α : Type} (r : Resampler)
    (X : DataFrame α) (hfit : r._is_fitted = true)
    (hnf : 1 ≤ r._n_features)
    (hrows : ∀ row ∈ Resampler.weekendStage r (Resampler.sample r X.rows),
        row.2 ≠ []) :
    ((∃ Y, Resampler.transform r X = Except.ok Y) ↔
        r._n_features ∣
          (Resampler.weekendStage r (Resampler.sample r X.rows)).length) ∧
    (¬ r._n_features ∣
          (Resampler.weekendStage r (Resampler.sample r X.rows)).length →
        Resampler.transform r X = Except.error PyError.ReshapeError) := by
  obtain ⟨col, hcol, hlen⟩ := firstColumn_ok_all _ hrows
  have htr : Resampler.transform r X = npReshapeNeg1 r._n_features col := by
    unfold Resampler.transform
    rw [hfit]
    simp only [if_true]
    unfold reshapeStage
    rw [hcol]
  constructor
  · constructor
    · rintro ⟨Y, hY⟩
      rw [htr] at hY
      unfold npReshapeNeg1 at hY
      by_cases hcond : r._n_features ≠ 0 ∧ r._n_features ∣ col.length
      · rw [← hlen]
        exact hcond.2
      · rw [if_neg hcond] at hY
        simp at hY
    · intro hdvd
      rw [htr]
      unfold npReshapeNeg1
      rw [if_pos ⟨by omega, by rw [hlen]; exact hdvd⟩]
      exact ⟨_, rfl⟩
  · intro hndvd
    rw [htr]
    unfold npReshapeNeg1
    rw [if_neg ?hc]
    case hc =>
      intro hcond
      exact hndvd (by rw [← hlen]; exact hcond.2)

/-- C10 witness: a fitted instance recording 2 features on a 3-row
single-column input, where 2 does not divide 3. -/
theorem resampler_reshape_divisibility_witness :
    ((∃ Y, Resampler.transform
          ({ sampling_type := "fixed", sampling_times := [0],
             remove_weekends := false, _is_fitted := true,
             _n_features := 2 } : Resampler)
          (⟨1, [(0, [5]), (86400, [6]), (172800, [7])]⟩ : DataFrame ℕ)
        = Except.ok Y) ↔
      2 ∣ (Resampler.weekendStage
          ({ sampling_type := "fixed", sampling_times := [0],
             remove_weekends := false, _is_fitted := true,
             _n_features := 2 } : Resampler)
          (Resampler.sample
            ({ sampling_type := "fixed", sampling_times := [0],
               remove_weekends := false, _is_fitted := true,
               _n_features := 2 } : Resampler)
            [(0, [5]), (86400, [6]), (172800, [7])])).length) ∧
    (¬ 2 ∣ (Resampler.weekendStage
          ({ sampling_type := "fixed", sampling_times := [0],
             remove_weekends := false, _is_fitted := true,
             _n_features := 2 } : Resampler)
          (Resampler.sample
            ({ sampling_type := "fixed", sampling_times := [0],
               remove_weekends := false, _is_fitted := true,
               _n_features := 2 } : Resampler)
            [(0, [5]), (86400, [6]), (172800, [7])])).length →
      Resampler.transform
          ({ sampling_type := "fixed", sampling_times := [0],
             remove_weekends := false, _is_fitted := true,
             _n_features := 2 } : Resampler)
          (⟨1, [(0, [5]), (86400, [6]), (172800, [7])]⟩ : DataFrame ℕ)
        = Except.error PyError.ReshapeError) := by
  exact resampler_reshape_divisibility
    ({ sampling_type := "fixed", sampling_times := [0],
       remove_weekends := false, _is_fitted := true,
       _n_features := 2 } : Resampler)
    (⟨1, [(0, [5]), (86400, [6]), (172800, [7])]⟩ : DataFrame ℕ)
    rfl (by norm_num) (by decide)
